import Mathlib

/-!
Verification of the stripe-service-api repository against its specification.

The repository is a thin Go HTTP facade over the Stripe client library.
This file shallowly embeds the parts of the code the claims speak about:

* the domain models (`internal/models/customer.go`, `internal/models/product.go`),
* the provider adapter and its converter functions (`internal/service/stripe.go`),
* the HTTP handler logic (`internal/handlers/stripe.go`),
* the router, middleware chain and dispatch behaviour (`internal/server`,
  together with the documented matching semantics of the gorilla/mux
  routing library the router is built on).

Conventions of the embedding:

* Go pointers that may be `nil` become `Option`; a `nil` map becomes `none`.
* `map[string]string` becomes an association list `List (String × String)`.
* Unix timestamps (`int64` seconds, `time.Unix(sec, 0)`) stay as `Int` seconds.
* A Go function that can hit a `nil`-pointer dereference is embedded as an
  `Except Unit _` value, `.error ()` marking the run-time panic; functions the
  code fully guards are embedded as plain total functions.
* A provider call outcome is an `Except String _` value carrying the provider
  error text, so the adapter's error wrapping is visible in the model.
-/

/-! ## Domain models (internal/models) -/

/-- Model of `models.Customer` (customer.go). -/
structure Customer where
  ID : String
  Email : String
  Name : String
  Phone : String
  Description : String
  Metadata : Option (List (String × String))
  CreatedAt : Int
  UpdatedAt : Int
deriving DecidableEq, Repr

/-- Model of `models.PaymentIntent` (part_001). -/
structure PaymentIntent where
  ID : String
  Amount : Int
  Currency : String
  Status : String
  CustomerID : String
  Description : String
  Metadata : Option (List (String × String))
  ClientSecret : String
  CreatedAt : Int
  UpdatedAt : Int
deriving DecidableEq, Repr

/-- Model of `models.Product` (product.go). -/
structure Product where
  ID : String
  Name : String
  Description : String
  Active : Bool
  Metadata : Option (List (String × String))
  CreatedAt : Int
  UpdatedAt : Int
deriving DecidableEq, Repr

/-- Model of `models.Price` (product.go).  The Go field `Type` is named
`PriceType` here because `Type` is a Lean keyword. -/
structure Price where
  ID : String
  ProductID : String
  UnitAmount : Int
  Currency : String
  PriceType : String
  RecurringInterval : String
  Active : Bool
  Metadata : Option (List (String × String))
  CreatedAt : Int
  UpdatedAt : Int
deriving DecidableEq, Repr

/-- Model of `models.Subscription` (product.go). -/
structure Subscription where
  ID : String
  CustomerID : String
  PriceID : String
  Status : String
  CurrentPeriodStart : Int
  CurrentPeriodEnd : Int
  Metadata : Option (List (String × String))
  CreatedAt : Int
  UpdatedAt : Int
deriving DecidableEq, Repr

/-- Model of `models.CreateCustomerRequest` (customer.go). -/
structure CreateCustomerRequest where
  Email : String
  Name : String
  Phone : String
  Description : String
  Metadata : Option (List (String × String))
deriving DecidableEq, Repr

/-- Model of `models.CreatePaymentIntentRequest` (part_001). -/
structure CreatePaymentIntentRequest where
  Amount : Int
  Currency : String
  CustomerID : String
  Description : String
  Metadata : Option (List (String × String))
  PaymentMethodID : String
  ConfirmationMethod : String
deriving DecidableEq, Repr

/-- Model of `models.CreateProductRequest` (product.go). -/
structure CreateProductRequest where
  Name : String
  Description : String
  Active : Bool
  Metadata : Option (List (String × String))
deriving DecidableEq, Repr

/-- Model of `models.CreatePriceRequest` (product.go).  The Go field `Type`
is named `PriceType` here because `Type` is a Lean keyword. -/
structure CreatePriceRequest where
  ProductID : String
  UnitAmount : Int
  Currency : String
  PriceType : String
  RecurringInterval : String
  Active : Bool
  Metadata : Option (List (String × String))
deriving DecidableEq, Repr

/-- Model of `models.ListCustomersRequest` (customer.go). -/
structure ListCustomersRequest where
  Limit : Int
  Cursor : String
deriving DecidableEq, Repr

/-- Model of `models.ListCustomersResponse` (customer.go). -/
structure ListCustomersResponse where
  Customers : List Customer
  HasMore : Bool
  NextCursor : String
deriving DecidableEq, Repr

/-! ## Stripe response objects (the provider's wire objects, stripe-go)

Only the fields the service layer reads are modelled.  Pointer-valued
nested references (`*stripe.Customer`, `*stripe.SubscriptionItemList`,
`*stripe.Product`, `*stripe.Price`, `*stripe.PriceRecurring`) become
`Option`s; slices of pointers become lists of `Option`s. -/

/-- Model of `stripe.Customer` as read by the converters. -/
structure StripeCustomerObj where
  ID : String
  Email : String
  Name : String
  Phone : String
  Description : String
  Metadata : Option (List (String × String))
  Created : Int
deriving DecidableEq, Repr

/-- Model of `stripe.PaymentIntent` as read by the converters.
`Customer` is a pointer in stripe-go, hence `Option`. -/
structure StripePaymentIntentObj where
  ID : String
  Amount : Int
  Currency : String
  Status : String
  Customer : Option StripeCustomerObj
  Description : String
  Metadata : Option (List (String × String))
  ClientSecret : String
  Created : Int
deriving DecidableEq, Repr

/-- Model of `stripe.Product` as read by the converters. -/
structure StripeProductObj where
  ID : String
  Name : String
  Description : String
  Active : Bool
  Metadata : Option (List (String × String))
  Created : Int
  Updated : Int
deriving DecidableEq, Repr

/-- Model of `stripe.PriceRecurring` (pointer field of `stripe.Price`). -/
structure StripePriceRecurringObj where
  Interval : String
deriving DecidableEq, Repr

/-- Model of `stripe.Price` as read by the converters.  `Product` and
`Recurring` are pointers in stripe-go, hence `Option`s. -/
structure StripePriceObj where
  ID : String
  Product : Option StripeProductObj
  UnitAmount : Int
  Currency : String
  Recurring : Option StripePriceRecurringObj
  Active : Bool
  Metadata : Option (List (String × String))
  Created : Int
deriving DecidableEq, Repr

/-- Model of `stripe.SubscriptionItem` as read by the converters
(`Price` is a pointer). -/
structure StripeSubscriptionItemObj where
  Price : Option StripePriceObj
deriving DecidableEq, Repr

/-- Model of `stripe.Subscription` as read by the converters.
`Customer` is a pointer; `Items` is a pointer to a list whose `Data`
slice holds pointers to items, modelled as `Option (List (Option _))`. -/
structure StripeSubscriptionObj where
  ID : String
  Customer : Option StripeCustomerObj
  Items : Option (List (Option StripeSubscriptionItemObj))
  Status : String
  CurrentPeriodStart : Int
  CurrentPeriodEnd : Int
  Metadata : Option (List (String × String))
  Created : Int
deriving DecidableEq, Repr

/-! ## Converter functions (internal/service/stripe.go, lines 262-444) -/

/-- Model of `convertStripeCustomerInterface` (stripe.go:337-351): the total
field-by-field conversion used once the input is known non-nil.  The Stripe
`Created` timestamp is used for both `CreatedAt` and `UpdatedAt`. -/
def convertStripeCustomerInterface (c : StripeCustomerObj) : Customer :=
  { ID := c.ID
    Email := c.Email
    Name := c.Name
    Phone := c.Phone
    Description := c.Description
    Metadata := c.Metadata
    CreatedAt := c.Created
    UpdatedAt := c.Created }

/-- Model of `convertStripeCustomer` (stripe.go:329-335): nil input yields
nil; otherwise the interface conversion runs on the adapter. -/
def convertStripeCustomer : Option StripeCustomerObj → Option Customer
  | none => none
  | some c => some (convertStripeCustomerInterface c)

/-- Model of `convertStripePaymentIntent` (stripe.go:353-376): nil input
yields nil; a nil `Customer` reference is guarded and becomes the empty
customer id, so there is no panic. -/
def convertStripePaymentIntent : Option StripePaymentIntentObj → Option PaymentIntent
  | none => none
  | some p =>
    let customerID := match p.Customer with
      | none => ""
      | some c => c.ID
    some
      { ID := p.ID
        Amount := p.Amount
        Currency := p.Currency
        Status := p.Status
        CustomerID := customerID
        Description := p.Description
        Metadata := p.Metadata
        ClientSecret := p.ClientSecret
        CreatedAt := p.Created
        UpdatedAt := p.Created }

/-- Model of `convertStripeProduct` (stripe.go:378-397): nil input yields
nil; `UpdatedAt` takes the provider's `Updated` timestamp when it is
positive, and falls back to `Created` otherwise. -/
def convertStripeProduct : Option StripeProductObj → Option Product
  | none => none
  | some p =>
    let createdAt := p.Created
    let updatedAt := if p.Updated > 0 then p.Updated else createdAt
    some
      { ID := p.ID
        Name := p.Name
        Description := p.Description
        Active := p.Active
        Metadata := p.Metadata
        CreatedAt := createdAt
        UpdatedAt := updatedAt }

/-- Model of `convertStripePrice` (stripe.go:399-425).  The Go code reads
`stripePrice.Product.ID` with no nil check, so a price whose `Product`
pointer is nil makes the function panic: that run is `.error ()`. -/
def convertStripePrice : Option StripePriceObj → Except Unit (Option Price)
  | none => .ok none
  | some p =>
    match p.Product with
    | none => .error ()
    | some prod =>
      let priceType := match p.Recurring with
        | some _ => "recurring"
        | none => "one_time"
      let recurringInterval := match p.Recurring with
        | some r => r.Interval
        | none => ""
      .ok (some
        { ID := p.ID
          ProductID := prod.ID
          UnitAmount := p.UnitAmount
          Currency := p.Currency
          PriceType := priceType
          RecurringInterval := recurringInterval
          Active := p.Active
          Metadata := p.Metadata
          CreatedAt := p.Created
          UpdatedAt := p.Created })

/-- Model of `convertStripeSubscription` (stripe.go:427-444).  The Go code
reads `stripeSub.Customer.ID` and `stripeSub.Items.Data[0].Price.ID` with no
nil or emptiness checks, so a nil `Customer`, a nil `Items` list, an empty
`Data` slice, a nil first item or a nil item `Price` each make the function
panic: those runs are `.error ()`. -/
def convertStripeSubscription : Option StripeSubscriptionObj → Except Unit (Option Subscription)
  | none => .ok none
  | some s =>
    match s.Customer with
    | none => .error ()
    | some cust =>
      match s.Items with
      | none => .error ()
      | some items =>
        match items with
        | [] => .error ()
        | firstItem :: _ =>
          match firstItem with
          | none => .error ()
          | some item =>
            match item.Price with
            | none => .error ()
            | some pr =>
              .ok (some
                { ID := s.ID
                  CustomerID := cust.ID
                  PriceID := pr.ID
                  Status := s.Status
                  CurrentPeriodStart := s.CurrentPeriodStart
                  CurrentPeriodEnd := s.CurrentPeriodEnd
                  Metadata := s.Metadata
                  CreatedAt := s.Created
                  UpdatedAt := s.Created })

/-! ## Provider parameter objects (stripe-go params as the adapter builds them)

Each `Option` field stands for a pointer (or nil-able map) field of the
stripe-go params struct: `none` means the field is left at its zero value
and therefore omitted from the outgoing provider request. -/

/-- Model of `stripe.CustomerParams` as built by `CreateCustomer`. -/
structure CustomerParams where
  Email : Option String
  Name : Option String
  Description : Option String
  Phone : Option String
  Metadata : Option (List (String × String))
deriving DecidableEq, Repr

/-- Model of `stripe.PaymentIntentParams` as built by `CreatePaymentIntent`. -/
structure PaymentIntentParams where
  Amount : Option Int
  Currency : Option String
  Customer : Option String
  Description : Option String
  Metadata : Option (List (String × String))
  PaymentMethod : Option String
  ConfirmationMethod : Option String
deriving DecidableEq, Repr

/-- Model of `stripe.ProductParams` as built by `CreateProduct`. -/
structure ProductParams where
  Name : Option String
  Description : Option String
  Active : Option Bool
  Metadata : Option (List (String × String))
deriving DecidableEq, Repr

/-- Model of `stripe.PriceRecurringParams` as built by `CreatePrice`. -/
structure PriceRecurringParams where
  Interval : Option String
deriving DecidableEq, Repr

/-- Model of `stripe.PriceParams` as built by `CreatePrice`. -/
structure PriceParams where
  Product : Option String
  UnitAmount : Option Int
  Currency : Option String
  Active : Option Bool
  Recurring : Option PriceRecurringParams
  Metadata : Option (List (String × String))
deriving DecidableEq, Repr

/-- Model of `stripe.CustomerListParams` as built by `ListCustomers`. -/
structure CustomerListParams where
  Limit : Option Int
  StartingAfter : Option String
deriving DecidableEq, Repr

/-! ## Parameter building (internal/service/stripe.go) -/

/-- Model of the params construction in `CreateCustomer` (stripe.go:42-58):
`Email`, `Name` and `Description` are set unconditionally via
`stripe.String`; `Phone` only when non-empty; `Metadata` only when
non-nil (assigning a nil map leaves the field nil either way). -/
def buildCustomerParams (req : CreateCustomerRequest) : CustomerParams :=
  { Email := some req.Email
    Name := some req.Name
    Description := some req.Description
    Phone := if req.Phone ≠ "" then some req.Phone else none
    Metadata := req.Metadata }

/-- Model of the params construction in `CreatePaymentIntent`
(stripe.go:116-141): `Amount` and `Currency` unconditionally, the five
optional fields only when non-empty/non-nil. -/
def buildPaymentIntentParams (req : CreatePaymentIntentRequest) : PaymentIntentParams :=
  { Amount := some req.Amount
    Currency := some req.Currency
    Customer := if req.CustomerID ≠ "" then some req.CustomerID else none
    Description := if req.Description ≠ "" then some req.Description else none
    Metadata := req.Metadata
    PaymentMethod := if req.PaymentMethodID ≠ "" then some req.PaymentMethodID else none
    ConfirmationMethod := if req.ConfirmationMethod ≠ "" then some req.ConfirmationMethod else none }

/-- Model of the params construction in `CreateProduct` (stripe.go:175-185):
`Name`, `Description` and `Active` unconditionally, `Metadata` when non-nil. -/
def buildProductParams (req : CreateProductRequest) : ProductParams :=
  { Name := some req.Name
    Description := some req.Description
    Active := some req.Active
    Metadata := req.Metadata }

/-- Model of the params construction in `CreatePrice` (stripe.go:196-213):
`Product`, `UnitAmount`, `Currency`, `Active` unconditionally; the
`Recurring` block only when the request type is "recurring" AND the
interval is non-empty; `Metadata` when non-nil. -/
def buildPriceParams (req : CreatePriceRequest) : PriceParams :=
  { Product := some req.ProductID
    UnitAmount := some req.UnitAmount
    Currency := some req.Currency
    Active := some req.Active
    Recurring :=
      if req.PriceType = "recurring" ∧ req.RecurringInterval ≠ "" then
        some { Interval := some req.RecurringInterval }
      else none
    Metadata := req.Metadata }

/-- `DefaultCustomerLimit` constant (stripe.go:17). -/
def DefaultCustomerLimit : Int := 10

/-- `MaxCustomerLimit` constant (stripe.go:18).  Declared in the source but
never referenced by any operation. -/
def MaxCustomerLimit : Int := 100

/-- Model of the params construction in `ListCustomers` (stripe.go:82-94):
a positive requested limit is forwarded as-is, otherwise the default of 10
is used; a non-empty cursor becomes `StartingAfter`. -/
def buildCustomerListParams (req : ListCustomersRequest) : CustomerListParams :=
  { Limit := some (if req.Limit > 0 then req.Limit else DefaultCustomerLimit)
    StartingAfter := if req.Cursor ≠ "" then some req.Cursor else none }

/-! ## Adapter operations (internal/service/stripe.go)

A provider call outcome is passed in as an `Except String` value: `.error
cause` is the provider failing with error text `cause`, `.ok obj` is the
provider's (non-nil) response object.  The adapter wraps provider errors
with a fixed operation tag using Go's `fmt.Errorf("...: %w", err)`. -/

/-- Model of `CreateCustomer` (stripe.go:42-66) given the provider outcome
for the built params. -/
def serviceCreateCustomer (provider : Except String StripeCustomerObj) :
    Except String (Option Customer) :=
  match provider with
  | .error e => .error ("failed to create customer: " ++ e)
  | .ok obj => .ok (convertStripeCustomer (some obj))

/-- Model of `GetCustomer` (stripe.go:69-79) given the provider outcome. -/
def serviceGetCustomer (provider : Except String StripeCustomerObj) :
    Except String (Option Customer) :=
  match provider with
  | .error e => .error ("failed to get customer: " ++ e)
  | .ok obj => .ok (convertStripeCustomer (some obj))

/-- Model of `CreateSubscription` (stripe.go:226-247) given the provider
outcome.  On provider success the unguarded converter runs, so the whole
operation can panic (outer `.error ()`); on provider failure the error is
wrapped and no panic can occur. -/
def serviceCreateSubscription (provider : Except String StripeSubscriptionObj) :
    Except Unit (Except String (Option Subscription)) :=
  match provider with
  | .error e => .ok (.error ("failed to create subscription: " ++ e))
  | .ok obj =>
    match convertStripeSubscription (some obj) with
    | .error () => .error ()
    | .ok m => .ok (.ok m)

/-- Model of `CreatePrice` (stripe.go:196-221) given the provider outcome,
with the same panic propagation as `serviceCreateSubscription`. -/
def serviceCreatePrice (provider : Except String StripePriceObj) :
    Except Unit (Except String (Option Price)) :=
  match provider with
  | .error e => .ok (.error ("failed to create price: " ++ e))
  | .ok obj =>
    match convertStripePrice (some obj) with
    | .error () => .error ()
    | .ok m => .ok (.ok m)

/-- Model of `ListCustomers` (stripe.go:82-111): builds the list params,
runs the provider page query (an `Except` outcome over the page's customer
objects plus the has-more flag), converts each entry and mirrors the
has-more flag.  The `NextCursor` field of the response is never set. -/
def serviceListCustomers
    (provider : CustomerListParams → Except String (List StripeCustomerObj × Bool))
    (req : ListCustomersRequest) : Except String ListCustomersResponse :=
  let params := buildCustomerListParams req
  match provider params with
  | .error e => .error ("failed to list customers: " ++ e)
  | .ok page =>
    .ok { Customers := page.1.map convertStripeCustomerInterface
          HasMore := page.2
          NextCursor := "" }

/-! ## Validation (go-playground/validator tags on the request models)

Each validator is the conjunction of the `validate:` struct tags of the
request type: `required` on a string is non-emptiness, `required,min=1` on
an integer is `≥ 1`, `len=3` is exact length 3, `email` is the email shape
check (not needed by any claim, kept abstract as non-emptiness plus
containing an at sign, the aspect the claims never rely on),
`oneof=one_time recurring` is membership in those two literals. -/

/-- Validation of `CreatePriceRequest` (product.go:39-47): `ProductID`
required; `UnitAmount` required and at least 1; `Currency` required with
length exactly 3; `Type` required and one of "one_time", "recurring".
`RecurringInterval`, `Active` and `Metadata` carry no validation tags. -/
def validCreatePriceRequest (r : CreatePriceRequest) : Bool :=
  r.ProductID ≠ "" ∧ r.UnitAmount ≥ 1 ∧ r.Currency.length = 3 ∧
    (r.PriceType = "one_time" ∨ r.PriceType = "recurring")

/-! ## Query parsing (Go strconv.ParseInt, base 10, bit size 64)

`ListCustomers` in the handler parses the `limit` query value with
`strconv.ParseInt(limitStr, 10, 64)` and only uses the value when the
error is nil.  The model returns `none` exactly when Go returns a non-nil
error: empty string, a stray sign, any non-digit character, or a value
outside the signed 64-bit range. -/

/-- Left-to-right accumulation over decimal digits; `none` on the first
non-digit character. -/
def parseDigitsGo : List Char → Nat → Option Nat
  | [], acc => some acc
  | c :: rest, acc =>
    if c.isDigit then parseDigitsGo rest (acc * 10 + (c.toNat - 48)) else none

/-- Value of a non-empty all-digit character list, `none` otherwise. -/
def parseDigits : List Char → Option Nat
  | [] => none
  | cs => parseDigitsGo cs 0

/-- Model of `strconv.ParseInt(s, 10, 64)` as used by the handler:
optional leading sign, decimal digits, signed 64-bit range check.
Go also rejects out-of-range values (it returns `ErrRange`), which the
handler treats the same as a syntax error. -/
def goParseInt64 (s : String) : Option Int :=
  match s.data with
  | [] => none
  | c :: rest =>
    let signedDigits : Bool × List Char :=
      if c = '-' then (true, rest)
      else if c = '+' then (false, rest)
      else (false, c :: rest)
    match parseDigits signedDigits.2 with
    | none => none
    | some n =>
      let v : Int := if signedDigits.1 then -(n : Int) else (n : Int)
      if v < -(2 ^ 63) ∨ v > 2 ^ 63 - 1 then none else some v

/-! ## HTTP layer (internal/handlers/stripe.go)

A response is its status code, its headers and its JSON payload.  The
payload inductive has one constructor per JSON shape the handlers write;
`errorObj m` is the body `{"error": m}` written by `writeError`. -/

/-- The JSON payloads the handlers can write. -/
inductive Payload where
  | empty
  | errorObj (message : String)
  | health (status service : String)
  | customer (c : Option Customer)
  | paymentIntent (p : Option PaymentIntent)
  | product (p : Option Product)
  | price (p : Option Price)
  | subscription (s : Option Subscription)
  | customerList (r : ListCustomersResponse)
deriving DecidableEq, Repr

/-- An HTTP response: status code, headers (name-value pairs, in the order
they are set) and body payload. -/
structure HttpResponse where
  status : Nat
  headers : List (String × String)
  body : Payload
deriving DecidableEq, Repr

/-- The header set by `writeJSON` and `writeError` (stripe.go:287-304). -/
def jsonContentType : List (String × String) :=
  [("Content-Type", "application/json")]

/-- Model of `writeJSON` (stripe.go:287-294). -/
def writeJSON (status : Nat) (body : Payload) : HttpResponse :=
  { status := status, headers := jsonContentType, body := body }

/-- Model of `writeError` (stripe.go:296-304): a JSON object with the
single key "error". -/
def writeError (status : Nat) (message : String) : HttpResponse :=
  { status := status, headers := jsonContentType, body := .errorObj message }

/-- Model of `handleServiceError` (stripe.go:34-48): logs (not modelled)
and writes a 500 whose body names only the attempted operation.  The
provider error `err` is a parameter of the Go function but flows only into
the log, never into the response, which this definition makes literal: the
result does not depend on `err`. -/
def handleServiceError (err : String) (operation : String) : HttpResponse :=
  writeError 500 ("Failed to " ++ operation)

/-! ### Post-adapter stage of each endpoint handler

Each handler, after JSON decoding and validation succeed (i.e. for a
request that reaches the service adapter), calls one adapter method and
either maps an adapter error through `handleServiceError` or writes the
result with its success status.  Those continuations are embedded one per
endpoint, taking the adapter outcome as input. -/

/-- `CreateCustomer` handler, adapter-outcome stage (stripe.go:98-107). -/
def createCustomerRespond (outcome : Except String (Option Customer)) : HttpResponse :=
  match outcome with
  | .error e => handleServiceError e "create customer"
  | .ok c => writeJSON 201 (.customer c)

/-- `GetCustomer` handler, adapter-outcome stage (stripe.go:117-125). -/
def getCustomerRespond (outcome : Except String (Option Customer)) : HttpResponse :=
  match outcome with
  | .error e => handleServiceError e "get customer"
  | .ok c => writeJSON 200 (.customer c)

/-- `ListCustomers` handler, adapter-outcome stage (stripe.go:143-152). -/
def listCustomersRespond (outcome : Except String ListCustomersResponse) : HttpResponse :=
  match outcome with
  | .error e => handleServiceError e "list customers"
  | .ok r => writeJSON 200 (.customerList r)

/-- `CreatePaymentIntent` handler, adapter-outcome stage (stripe.go:165-175). -/
def createPaymentIntentRespond (outcome : Except String (Option PaymentIntent)) : HttpResponse :=
  match outcome with
  | .error e => handleServiceError e "create payment intent"
  | .ok p => writeJSON 201 (.paymentIntent p)

/-- `ConfirmPaymentIntent` handler, adapter-outcome stage (stripe.go:190-199). -/
def confirmPaymentIntentRespond (outcome : Except String (Option PaymentIntent)) : HttpResponse :=
  match outcome with
  | .error e => handleServiceError e "confirm payment intent"
  | .ok p => writeJSON 200 (.paymentIntent p)

/-- `CreateProduct` handler, adapter-outcome stage (stripe.go:212-221). -/
def createProductRespond (outcome : Except String (Option Product)) : HttpResponse :=
  match outcome with
  | .error e => handleServiceError e "create product"
  | .ok p => writeJSON 201 (.product p)

/-- `CreatePrice` handler, adapter-outcome stage (stripe.go:232-242). -/
def createPriceRespond (outcome : Except String (Option Price)) : HttpResponse :=
  match outcome with
  | .error e => handleServiceError e "create price"
  | .ok p => writeJSON 201 (.price p)

/-- `CreateSubscription` handler, adapter-outcome stage (stripe.go:255-264). -/
def createSubscriptionRespond (outcome : Except String (Option Subscription)) : HttpResponse :=
  match outcome with
  | .error e => handleServiceError e "create subscription"
  | .ok s => writeJSON 201 (.subscription s)

/-- `CancelSubscription` handler, adapter-outcome stage (stripe.go:274-282). -/
def cancelSubscriptionRespond (outcome : Except String (Option Subscription)) : HttpResponse :=
  match outcome with
  | .error e => handleServiceError e "cancel subscription"
  | .ok s => writeJSON 200 (.subscription s)

/-! ### Full handlers needed by the claims -/

/-- Model of `mux.Vars(r)[name]`: a Go map lookup returning the zero value
(the empty string) when the key is absent. -/
def muxVarGet (vars : List (String × String)) (name : String) : String :=
  match vars.lookup name with
  | some v => v
  | none => ""

/-- Model of the `GetCustomer` handler (stripe.go:111-126) over the route
variables and the adapter, which is passed as a function so that
non-invocation on the 400 path is expressible: the handler first runs
`extractPathParameter` (stripe.go:66-76) and only consults the adapter
when the id variable is non-empty. -/
def getCustomerHandler (svc : String → Except String (Option Customer))
    (vars : List (String × String)) : HttpResponse :=
  let customerID := muxVarGet vars "id"
  if customerID = "" then
    writeError 400 "Missing or empty id parameter"
  else
    getCustomerRespond (svc customerID)

/-- Query parsing of the `ListCustomers` handler (stripe.go:130-141) over
the raw query values (`Query().Get` returns the empty string when the
parameter is absent): `req.Limit` keeps its zero value unless the limit
string is non-empty and `strconv.ParseInt` succeeds, so an invalid value
is silently ignored; `req.Cursor` is set verbatim when non-empty. -/
def parseListQuery (limitStr cursorStr : String) : ListCustomersRequest :=
  { Limit :=
      if limitStr ≠ "" then
        match goParseInt64 limitStr with
        | some l => l
        | none => 0
      else 0
    Cursor := if cursorStr ≠ "" then cursorStr else "" }

/-- Model of the `ListCustomers` handler (stripe.go:129-153): builds the
internal request from the query, then runs the service call and the
outcome stage. -/
def listCustomersHandler
    (provider : CustomerListParams → Except String (List StripeCustomerObj × Bool))
    (limitStr cursorStr : String) : HttpResponse :=
  listCustomersRespond (serviceListCustomers provider (parseListQuery limitStr cursorStr))

/-! ## Router and middleware (internal/server, part_002:316-431)

The route table is the one `setupRouter` registers (part_002:342-379),
with the `/api/v1` subrouter path spliced into each pattern.  Dispatch
follows the documented matching semantics of the gorilla/mux library the
router is built on:

* a route matches when its path template matches the request path and its
  `Methods` set contains the request method; a template variable `{id}`
  matches exactly one non-empty path segment (default pattern, no custom
  regex, `StrictSlash` not enabled so no trailing-slash redirect);
* middlewares registered with `router.Use` wrap the matched handler and
  run only on a successful match;
* when some route's path matches but no method does, the router answers
  405 through its method-not-allowed handler, without the middlewares;
* when no route's path matches, the router answers 404, without the
  middlewares. -/

/-- HTTP methods used by the route table. -/
inductive Method where
  | GET | POST | PUT | DELETE | OPTIONS
deriving DecidableEq, Repr

/-- One segment of a route template: a literal or a `{name}` variable. -/
inductive PathSeg where
  | lit (s : String)
  | var (name : String)
deriving DecidableEq, Repr

/-- Identifier of each registered endpoint handler (part_002:352-376),
including the explicit no-op OPTIONS handler on /customers. -/
inductive HandlerId where
  | healthCheck
  | createCustomer
  | listCustomers
  | getCustomer
  | customersOptionsNoOp
  | createPaymentIntent
  | confirmPaymentIntent
  | createProduct
  | createPrice
  | createSubscription
  | cancelSubscription
deriving DecidableEq, Repr

/-- A registered route: path template, allowed methods, handler. -/
structure Route where
  pattern : List PathSeg
  methods : List Method
  handler : HandlerId
deriving DecidableEq, Repr

/-- The table `setupRouter` registers, in registration order
(part_002:352-376); every pattern lives under the /api/v1 subrouter. -/
def routeTable : List Route :=
  [ { pattern := [.lit "api", .lit "v1", .lit "health"],
      methods := [.GET, .OPTIONS], handler := .healthCheck }
  , { pattern := [.lit "api", .lit "v1", .lit "customers"],
      methods := [.POST], handler := .createCustomer }
  , { pattern := [.lit "api", .lit "v1", .lit "customers"],
      methods := [.GET], handler := .listCustomers }
  , { pattern := [.lit "api", .lit "v1", .lit "customers", .var "id"],
      methods := [.GET], handler := .getCustomer }
  , { pattern := [.lit "api", .lit "v1", .lit "customers"],
      methods := [.OPTIONS], handler := .customersOptionsNoOp }
  , { pattern := [.lit "api", .lit "v1", .lit "payment-intents"],
      methods := [.POST], handler := .createPaymentIntent }
  , { pattern := [.lit "api", .lit "v1", .lit "payment-intents", .var "id", .lit "confirm"],
      methods := [.POST], handler := .confirmPaymentIntent }
  , { pattern := [.lit "api", .lit "v1", .lit "products"],
      methods := [.POST], handler := .createProduct }
  , { pattern := [.lit "api", .lit "v1", .lit "prices"],
      methods := [.POST], handler := .createPrice }
  , { pattern := [.lit "api", .lit "v1", .lit "subscriptions"],
      methods := [.POST], handler := .createSubscription }
  , { pattern := [.lit "api", .lit "v1", .lit "subscriptions", .var "id"],
      methods := [.DELETE], handler := .cancelSubscription } ]

/-- Match a route template against the path segments, collecting the
variables; a template variable requires one non-empty segment (the mux
default variable pattern). -/
def matchSegs : List PathSeg → List String → Option (List (String × String))
  | [], [] => some []
  | .lit s :: ps, t :: ts => if s = t then matchSegs ps ts else none
  | .var n :: ps, t :: ts =>
      if t ≠ "" then (matchSegs ps ts).map (fun vs => (n, t) :: vs) else none
  | _, _ => none

/-- Split a character list on the slash character, the accumulator holding
the current segment's characters in reverse. -/
def splitSlash : List Char → List Char → List String
  | [], acc => [String.mk acc.reverse]
  | c :: rest, acc =>
    if c = '/' then String.mk acc.reverse :: splitSlash rest []
    else splitSlash rest (c :: acc)

/-- Split a request path on "/", dropping the leading empty segment that a
path starting with "/" produces; a trailing slash yields a trailing empty
segment, as it does for the mux regex matcher. -/
def splitPath (path : String) : List String :=
  (splitSlash path.data []).drop 1

/-- Dispatch outcome of the router for a request. -/
inductive DispatchOutcome where
  | matched (h : HandlerId) (vars : List (String × String))
  | methodNotAllowed
  | notFound
deriving DecidableEq, Repr

/-- First route fully matching path and method. -/
def findRoute (m : Method) (segs : List String) : List Route → Option (HandlerId × List (String × String))
  | [] => none
  | r :: rest =>
    match matchSegs r.pattern segs with
    | some vars => if m ∈ r.methods then some (r.handler, vars) else findRoute m segs rest
    | none => findRoute m segs rest

/-- Whether any route's path template matches the segments, whatever the
method (drives the 405-versus-404 distinction). -/
def anyPathMatches (segs : List String) (rs : List Route) : Bool :=
  rs.any (fun r => (matchSegs r.pattern segs).isSome)

/-- Router dispatch per the gorilla/mux matching rules. -/
def dispatch (m : Method) (segs : List String) : DispatchOutcome :=
  match findRoute m segs routeTable with
  | some (h, vars) => .matched h vars
  | none =>
    if anyPathMatches segs routeTable then .methodNotAllowed else .notFound

/-- The three headers `corsMiddleware` sets (part_002:408-410). -/
def corsHeaders : List (String × String) :=
  [ ("Access-Control-Allow-Origin", "*")
  , ("Access-Control-Allow-Methods", "GET, POST, PUT, DELETE, OPTIONS")
  , ("Access-Control-Allow-Headers", "Content-Type, Authorization") ]

/-- Model of `corsMiddleware` (part_002:406-419): sets the three headers,
answers OPTIONS itself with 200 and an empty body without calling the
inner handler, and otherwise runs the inner handler under the headers. -/
def corsMiddleware (m : Method) (next : Unit → HttpResponse) : HttpResponse :=
  if m = .OPTIONS then
    { status := 200, headers := corsHeaders, body := .empty }
  else
    let r := next ()
    { r with headers := corsHeaders ++ r.headers }

/-- Model of `loggingMiddleware` (part_002:382-403): it wraps the writer
to record the status code and logs after the inner chain completes; the
response itself passes through unchanged. -/
def loggingMiddleware (resp : HttpResponse) : HttpResponse := resp

/-- Full router behaviour on a request, parameterised by an interpretation
`hfun` of the endpoint handlers (their behaviour depends on bodies and the
provider, which the routing claims quantify over): on a match the
middleware chain (logging outermost, then CORS) wraps the handler; on a
method mismatch 405; otherwise 404, per the mux defaults. -/
def serve (hfun : HandlerId → List (String × String) → Method → HttpResponse)
    (m : Method) (path : String) : HttpResponse :=
  match dispatch m (splitPath path) with
  | .matched h vars => loggingMiddleware (corsMiddleware m (fun _ => hfun h vars m))
  | .methodNotAllowed => { status := 405, headers := [], body := .empty }
  | .notFound => { status := 404, headers := [], body := .empty }

/-- An arbitrary fixed handler interpretation for closed instances: every
handler answers 204.  The routing facts proved below are quantified over
the interpretation; this one only feeds closed statements. -/
def stubHandlers : HandlerId → List (String × String) → Method → HttpResponse :=
  fun _ _ _ => { status := 204, headers := [], body := .empty }

/-! ## Helper predicates and concrete sample objects -/

/-- `true` exactly when a converter run finished without a panic. -/
def noPanic {α : Type} : Except Unit α → Bool
  | .ok _ => true
  | .error _ => false

/-- `true` exactly when the dispatch outcome matched a registered route. -/
def isMatched : DispatchOutcome → Bool
  | .matched _ _ => true
  | _ => false

/-- Presence of the nested references `Items.Data[0].Price` that
`convertStripeSubscription` dereferences without a guard. -/
def subItemsRefPresent : Option (List (Option StripeSubscriptionItemObj)) → Bool
  | none => false
  | some [] => false
  | some (none :: _) => false
  | some (some item :: _) => item.Price.isSome

/-- `true` exactly when the converted product's last-update timestamp
equals its creation timestamp. -/
def productUpdEqCre (m : Product) : Bool :=
  decide (m.UpdatedAt = m.CreatedAt)

/-- A fully populated price object for use inside sample subscriptions. -/
def samplePriceObj : StripePriceObj :=
  { ID := "price_1"
    Product := some
      { ID := "prod_1", Name := "P", Description := "", Active := true,
        Metadata := none, Created := 10, Updated := 0 }
    UnitAmount := 500
    Currency := "usd"
    Recurring := none
    Active := true
    Metadata := none
    Created := 10 }

/-- A provider subscription object whose `Customer` reference is absent
(a nil pointer), everything else populated. -/
def subMissingCustomer : StripeSubscriptionObj :=
  { ID := "sub_1"
    Customer := none
    Items := some [some { Price := some samplePriceObj }]
    Status := "active"
    CurrentPeriodStart := 100
    CurrentPeriodEnd := 200
    Metadata := none
    Created := 50 }

/-- A provider subscription object with every nested reference present. -/
def subAllRefs : StripeSubscriptionObj :=
  { ID := "sub_2"
    Customer := some
      { ID := "cus_1", Email := "a@b.com", Name := "A", Phone := "",
        Description := "", Metadata := none, Created := 40 }
    Items := some [some { Price := some samplePriceObj }]
    Status := "active"
    CurrentPeriodStart := 100
    CurrentPeriodEnd := 200
    Metadata := none
    Created := 50 }

/-- A create-price request of recurring type with an empty interval and
all validated fields in range. -/
def recurringNoIntervalReq : CreatePriceRequest :=
  { ProductID := "prod_1", UnitAmount := 100, Currency := "usd",
    PriceType := "recurring", RecurringInterval := "",
    Active := true, Metadata := none }

/-- A create-price request whose type is spelled "one_time", the spelling
the validator accepts (the spec writes "one-time"). -/
def oneTimeUnderscoreReq : CreatePriceRequest :=
  { ProductID := "prod_1", UnitAmount := 100, Currency := "usd",
    PriceType := "one_time", RecurringInterval := "",
    Active := true, Metadata := none }

/-- A provider product object whose update timestamp differs from its
creation timestamp. -/
def productWithLaterUpdate : StripeProductObj :=
  { ID := "prod_9", Name := "N", Description := "", Active := true,
    Metadata := none, Created := 100, Updated := 200 }

/-- The internal model `convertStripeProduct` yields for
`productWithLaterUpdate`. -/
def productWithLaterUpdateModel : Product :=
  { ID := "prod_9", Name := "N", Description := "", Active := true,
    Metadata := none, CreatedAt := 100, UpdatedAt := 200 }

/-- A create-customer request whose optional fields are all empty/absent. -/
def emptyOptionalCustomerReq : CreateCustomerRequest :=
  { Email := "a@b.com", Name := "A", Phone := "", Description := "",
    Metadata := none }

/-- A provider page outcome that always succeeds with an empty page, used
to instantiate provider-quantified theorems. -/
def emptyPageProvider : CustomerListParams → Except String (List StripeCustomerObj × Bool) :=
  fun _ => .ok ([], false)

/-! ## Claim theorems -/

/-- Claim C1 (confirmed): for every endpoint, when the adapter call
returns an error the handler responds 500 with the JSON body
`("error", "Failed to <operation>")` naming only the attempted operation.
Each equation's right-hand side does not mention the provider error `e`,
so the provider's error text cannot appear in the response body. -/
theorem c1_adapter_error_yields_generic_500 (e : String) :
    createCustomerRespond (.error e) = writeError 500 "Failed to create customer"
    ∧ getCustomerRespond (.error e) = writeError 500 "Failed to get customer"
    ∧ listCustomersRespond (.error e) = writeError 500 "Failed to list customers"
    ∧ createPaymentIntentRespond (.error e) = writeError 500 "Failed to create payment intent"
    ∧ confirmPaymentIntentRespond (.error e) = writeError 500 "Failed to confirm payment intent"
    ∧ createProductRespond (.error e) = writeError 500 "Failed to create product"
    ∧ createPriceRespond (.error e) = writeError 500 "Failed to create price"
    ∧ createSubscriptionRespond (.error e) = writeError 500 "Failed to create subscription"
    ∧ cancelSubscriptionRespond (.error e) = writeError 500 "Failed to cancel subscription" :=
  ⟨rfl, rfl, rfl, rfl, rfl, rfl, rfl, rfl, rfl⟩

/-- Claim C2 (confirmed): when the caller specifies no limit, or the limit
query value is not a valid integer, the page-size limit sent to the
provider is exactly 10; such a request still succeeds whenever the
provider page call succeeds; and a non-empty cursor is forwarded verbatim
as `StartingAfter`. -/
theorem c2_invalid_limit_defaults_to_ten
    (provider : CustomerListParams → Except String (List StripeCustomerObj × Bool))
    (limitStr cursorStr : String)
    (hbad : limitStr = "" ∨ goParseInt64 limitStr = none) :
    (buildCustomerListParams (parseListQuery limitStr cursorStr)).Limit = some 10
    ∧ (∀ page, provider (buildCustomerListParams (parseListQuery limitStr cursorStr)) = .ok page →
        (listCustomersHandler provider limitStr cursorStr).status = 200)
    ∧ (cursorStr ≠ "" →
        (buildCustomerListParams (parseListQuery limitStr cursorStr)).StartingAfter = some cursorStr) := by
  have hreq : (parseListQuery limitStr cursorStr).Limit = 0 := by
    rcases hbad with h | h
    · simp [parseListQuery, h]
    · by_cases he : limitStr = ""
      · simp [parseListQuery, he]
      · simp [parseListQuery, he, h]
  refine ⟨?_, ?_, ?_⟩
  · simp [buildCustomerListParams, hreq, DefaultCustomerLimit]
  · intro page hp
    simp [listCustomersHandler, serviceListCustomers, hp, listCustomersRespond, writeJSON]
  · intro hc
    simp [buildCustomerListParams, parseListQuery, hc]

/-- Witness for C2 at the concrete query `limit=invalid&cursor=cus_42`
against a provider that answers with an empty page. -/
theorem c2_invalid_limit_defaults_to_ten_witness :
    (buildCustomerListParams (parseListQuery "invalid" "cus_42")).Limit = some 10
    ∧ (listCustomersHandler emptyPageProvider "invalid" "cus_42").status = 200
    ∧ (buildCustomerListParams (parseListQuery "invalid" "cus_42")).StartingAfter = some "cus_42" := by
  obtain ⟨h1, h2, h3⟩ :=
    c2_invalid_limit_defaults_to_ten emptyPageProvider "invalid" "cus_42" (Or.inr (by decide))
  exact ⟨h1, h2 ([], false) rfl, h3 (by decide)⟩

/-- Counterexample for C3: a provider subscription whose `Customer`
reference is absent makes `convertStripeSubscription` dereference a nil
pointer (modelled `.error ()`), so the converter does not complete
without panicking, contrary to the claim. -/
theorem c3_subscription_converter_panics_on_missing_customer :
    convertStripeSubscription (some subMissingCustomer) = .error () := rfl

/-- Claim C3 (amended): adapter operations wrap provider errors with a
descriptive operation tag and cannot panic on the provider-failure path;
the customer converter is total; but the price and subscription converters
complete without panicking exactly when their unguarded nested references
(price's product; subscription's customer and first item's price) are
present. -/
theorem c3_amended_no_panic_requires_refs :
    (∀ e, serviceCreateCustomer (.error e) = .error ("failed to create customer: " ++ e))
    ∧ (∀ obj, serviceCreateCustomer (.ok obj) = .ok (some (convertStripeCustomerInterface obj)))
    ∧ (∀ e, serviceCreateSubscription (.error e) = .ok (.error ("failed to create subscription: " ++ e)))
    ∧ (∀ e, serviceCreatePrice (.error e) = .ok (.error ("failed to create price: " ++ e)))
    ∧ (∀ p, noPanic (convertStripePrice (some p)) = p.Product.isSome)
    ∧ (∀ s, noPanic (convertStripeSubscription (some s)) =
        (s.Customer.isSome && subItemsRefPresent s.Items)) := by
  refine ⟨fun e => rfl, fun obj => rfl, fun e => rfl, fun e => rfl, ?_, ?_⟩
  · intro p
    rcases p with ⟨id, prod, ua, cur, rec, act, md, cr⟩
    cases prod <;> simp [convertStripePrice, noPanic]
  · intro s
    rcases s with ⟨id, cust, items, st, cps, cpe, md, cr⟩
    cases cust with
    | none => simp [convertStripeSubscription, noPanic]
    | some c =>
      cases items with
      | none => simp [convertStripeSubscription, noPanic, subItemsRefPresent]
      | some l =>
        cases l with
        | nil => simp [convertStripeSubscription, noPanic, subItemsRefPresent]
        | cons hd tl =>
          cases hd with
          | none => simp [convertStripeSubscription, noPanic, subItemsRefPresent]
          | some item =>
            rcases item with ⟨pr⟩
            cases pr <;>
              simp [convertStripeSubscription, noPanic, subItemsRefPresent]

/-- Counterexample for C4: the route `/api/v1/products` is registered for
POST only, so an OPTIONS request to it never matches a route; per the mux
matching rules the middlewares do not run and the router answers 405 with
no CORS headers instead of the claimed 200 with the three headers. -/
theorem c4_options_products_gets_405_without_cors :
    (serve stubHandlers .OPTIONS "/api/v1/products").status = 405
    ∧ (serve stubHandlers .OPTIONS "/api/v1/products").headers = [] := by
  constructor <;> rfl

/-- Claim C4 (amended): for every OPTIONS request that matches a
registered route (in this table: `/api/v1/health` and `/api/v1/customers`,
the routes registering the OPTIONS method), the response is 200 with
exactly the three CORS headers and an empty body, and it is independent of
the endpoint handlers, which therefore never run.  OPTIONS requests to
paths whose routes do not register OPTIONS never reach the middleware. -/
theorem c4_amended_options_matched_route_short_circuits
    (hfun hfun' : HandlerId → List (String × String) → Method → HttpResponse)
    (path : String)
    (h : isMatched (dispatch .OPTIONS (splitPath path)) = true) :
    serve hfun .OPTIONS path = { status := 200, headers := corsHeaders, body := .empty }
    ∧ serve hfun .OPTIONS path = serve hfun' .OPTIONS path := by
  cases hd : dispatch .OPTIONS (splitPath path) with
  | matched hid vars =>
    constructor <;> simp [serve, hd, corsMiddleware, loggingMiddleware]
  | methodNotAllowed => rw [hd] at h; simp [isMatched] at h
  | notFound => rw [hd] at h; simp [isMatched] at h

/-- Witness for C4 (amended) at the concrete request
OPTIONS `/api/v1/customers`. -/
theorem c4_amended_options_short_circuits_witness :
    serve stubHandlers .OPTIONS "/api/v1/customers"
      = { status := 200, headers := corsHeaders, body := .empty } :=
  (c4_amended_options_matched_route_short_circuits stubHandlers
    (fun _ _ _ => writeError 418 "unused") "/api/v1/customers" (by decide)).1

/-- Counterexample for C5: a create-price request of type "recurring" with
an empty recurring interval passes the validator (no 400), contradicting
the claim that an accepted recurring request carries a non-empty interval;
moreover the accepted spelling is "one_time", not the claimed "one-time". -/
theorem c5_validator_accepts_recurring_without_interval :
    validCreatePriceRequest recurringNoIntervalReq = true
    ∧ recurringNoIntervalReq.PriceType = "recurring"
    ∧ recurringNoIntervalReq.RecurringInterval = ""
    ∧ validCreatePriceRequest oneTimeUnderscoreReq = true
    ∧ ¬ oneTimeUnderscoreReq.PriceType = "one-time" := by
  refine ⟨by decide, rfl, rfl, by decide, by decide⟩

/-- Claim C5 (amended): every create-price request accepted by validation
has type "one_time" or "recurring" (underscore spelling); validation does
not require an interval for a recurring request, and whenever the interval
is empty the adapter simply omits the recurring block from the provider
parameters. -/
theorem c5_amended_accepted_types
    (r : CreatePriceRequest) :
    (validCreatePriceRequest r = true → r.PriceType = "one_time" ∨ r.PriceType = "recurring")
    ∧ (r.RecurringInterval = "" → (buildPriceParams r).Recurring = none) := by
  constructor
  · intro h
    simp only [validCreatePriceRequest, decide_eq_true_eq] at h
    exact h.2.2.2
  · intro h
    simp [buildPriceParams, h]

/-- Witness for C5 (amended) at the concrete accepted request of recurring
type with empty interval. -/
theorem c5_amended_accepted_types_witness :
    (recurringNoIntervalReq.PriceType = "one_time" ∨ recurringNoIntervalReq.PriceType = "recurring")
    ∧ (buildPriceParams recurringNoIntervalReq).Recurring = none :=
  ⟨(c5_amended_accepted_types recurringNoIntervalReq).1 (by decide),
   (c5_amended_accepted_types recurringNoIntervalReq).2 rfl⟩

/-- Counterexample for C6: the product converter maps a provider product
with `Created = 100` and `Updated = 200` to a model whose `UpdatedAt`
differs from its `CreatedAt`, so not every resource converter equates the
two timestamps. -/
theorem c6_product_converter_updated_differs :
    Option.map productUpdEqCre (convertStripeProduct (some productWithLaterUpdate))
      = some false := rfl

/-- Claim C6 (amended): the customer conversion preserves identifier,
email, name and creation timestamp and sets `UpdatedAt = CreatedAt`, as do
the payment-intent, price and subscription converters; the product
converter instead uses the provider's separate `Updated` timestamp
whenever it is positive, falling back to `Created` otherwise. -/
theorem c6_amended_timestamps :
    (∀ c, (convertStripeCustomerInterface c).ID = c.ID
        ∧ (convertStripeCustomerInterface c).Email = c.Email
        ∧ (convertStripeCustomerInterface c).Name = c.Name
        ∧ (convertStripeCustomerInterface c).CreatedAt = c.Created
        ∧ (convertStripeCustomerInterface c).UpdatedAt = (convertStripeCustomerInterface c).CreatedAt)
    ∧ (∀ x m, convertStripePaymentIntent (some x) = some m → m.UpdatedAt = m.CreatedAt)
    ∧ (∀ x m, convertStripePrice (some x) = .ok (some m) → m.UpdatedAt = m.CreatedAt)
    ∧ (∀ x m, convertStripeSubscription (some x) = .ok (some m) → m.UpdatedAt = m.CreatedAt)
    ∧ (∀ x m, convertStripeProduct (some x) = some m →
        m.CreatedAt = x.Created
        ∧ m.UpdatedAt = (if x.Updated > 0 then x.Updated else x.Created)) := by
  refine ⟨fun c => ⟨rfl, rfl, rfl, rfl, rfl⟩, ?_, ?_, ?_, ?_⟩
  · intro x m h
    simp only [convertStripePaymentIntent, Option.some.injEq] at h
    subst h; rfl
  · intro x m h
    rcases x with ⟨id, prod, ua, cur, rec, act, md, cr⟩
    cases prod with
    | none => simp [convertStripePrice] at h
    | some p =>
      simp only [convertStripePrice, Except.ok.injEq, Option.some.injEq] at h
      subst h; rfl
  · intro x m h
    rcases x with ⟨id, cust, items, st, cps, cpe, md, cr⟩
    cases cust with
    | none => simp [convertStripeSubscription] at h
    | some c =>
      cases items with
      | none => simp [convertStripeSubscription] at h
      | some l =>
        cases l with
        | nil => simp [convertStripeSubscription] at h
        | cons hd tl =>
          cases hd with
          | none => simp [convertStripeSubscription] at h
          | some item =>
            rcases item with ⟨pr⟩
            cases pr with
            | none => simp [convertStripeSubscription] at h
            | some p =>
              simp only [convertStripeSubscription, Except.ok.injEq, Option.some.injEq] at h
              subst h; rfl
  · intro x m h
    simp only [convertStripeProduct, Option.some.injEq] at h
    subst h; exact ⟨rfl, rfl⟩

/-- Witness for C6 (amended) at the concrete product with a later update
timestamp. -/
theorem c6_amended_timestamps_witness :
    productWithLaterUpdateModel.CreatedAt = productWithLaterUpdate.Created
    ∧ productWithLaterUpdateModel.UpdatedAt
      = (if productWithLaterUpdate.Updated > 0 then productWithLaterUpdate.Updated
         else productWithLaterUpdate.Created) :=
  c6_amended_timestamps.2.2.2.2 productWithLaterUpdate productWithLaterUpdateModel (by decide)

/-- Claim C7 (confirmed): every converter, given a nil provider object,
returns nil, without error and without substituting a default model (the
two unguarded converters do so before any dereference, hence `.ok none`). -/
theorem c7_nil_input_yields_nil :
    convertStripeCustomer none = none
    ∧ convertStripePaymentIntent none = none
    ∧ convertStripeProduct none = none
    ∧ convertStripePrice none = .ok none
    ∧ convertStripeSubscription none = .ok none :=
  ⟨rfl, rfl, rfl, rfl, rfl⟩

/-- Counterexample for C8: GET `/api/v1/customers/` (empty id segment)
matches no route — the `{id}` template variable requires a non-empty
segment and `/customers` does not match a trailing slash — so the router
answers 404 before any handler runs, not the claimed 400. -/
theorem c8_trailing_slash_get_customers_is_404 :
    (serve stubHandlers .GET "/api/v1/customers/").status = 404
    ∧ ¬ (serve stubHandlers .GET "/api/v1/customers/").status = 400 := by
  constructor <;> decide

/-- Claim C8 (amended): whenever an id-endpoint handler is invoked with an
empty or missing id route variable it responds 400 with the message
"Missing or empty id parameter" without consulting the service adapter
(the response is the same for every adapter); the route
GET `/api/v1/customers/` itself, however, never reaches the handler: the
router answers 404 whatever the handlers are. -/
theorem c8_amended_empty_id_is_handler_level_400
    (svc svc' : String → Except String (Option Customer))
    (vars : List (String × String))
    (hempty : muxVarGet vars "id" = "") :
    getCustomerHandler svc vars = writeError 400 "Missing or empty id parameter"
    ∧ getCustomerHandler svc vars = getCustomerHandler svc' vars
    ∧ (∀ hfun, (serve hfun .GET "/api/v1/customers/").status = 404) := by
  refine ⟨?_, ?_, ?_⟩
  · simp [getCustomerHandler, hempty]
  · simp [getCustomerHandler, hempty]
  · intro hfun
    have hd : dispatch .GET (splitPath "/api/v1/customers/") = .notFound := by decide
    simp [serve, hd]

/-- Witness for C8 (amended) at an empty route-variable map and two
different adapters. -/
theorem c8_amended_empty_id_witness :
    getCustomerHandler (fun _ => .error "boom") []
      = writeError 400 "Missing or empty id parameter"
    ∧ (serve stubHandlers .GET "/api/v1/customers/").status = 404 := by
  obtain ⟨h1, _, h3⟩ :=
    c8_amended_empty_id_is_handler_level_400 (fun _ => .error "boom")
      (fun _ => .ok none) [] rfl
  exact ⟨h1, h3 stubHandlers⟩

/-- Counterexample for C9: the create-customer adapter sets the provider
params' `Description` unconditionally, so a request whose optional
description is empty still sends it explicitly (as a pointer to the empty
string) instead of omitting it. -/
theorem c9_empty_description_sent_explicitly :
    (buildCustomerParams emptyOptionalCustomerReq).Description = some ""
    ∧ emptyOptionalCustomerReq.Description = "" :=
  ⟨rfl, rfl⟩

/-- Claim C9 (amended): for the create operations, the conditionally set
optional fields — customer phone and metadata; payment-intent customer,
description, payment method, confirmation method and metadata; product
metadata — are omitted from the provider params when empty or nil, but
customer description, product description and product active are always
sent, even when empty or zero. -/
theorem c9_amended_conditional_fields_omitted
    (cr : CreateCustomerRequest) (pr : CreatePaymentIntentRequest)
    (gr : CreateProductRequest) :
    (cr.Phone = "" → (buildCustomerParams cr).Phone = none)
    ∧ (cr.Metadata = none → (buildCustomerParams cr).Metadata = none)
    ∧ (buildCustomerParams cr).Description = some cr.Description
    ∧ (pr.CustomerID = "" → (buildPaymentIntentParams pr).Customer = none)
    ∧ (pr.Description = "" → (buildPaymentIntentParams pr).Description = none)
    ∧ (pr.PaymentMethodID = "" → (buildPaymentIntentParams pr).PaymentMethod = none)
    ∧ (pr.ConfirmationMethod = "" → (buildPaymentIntentParams pr).ConfirmationMethod = none)
    ∧ (pr.Metadata = none → (buildPaymentIntentParams pr).Metadata = none)
    ∧ (gr.Metadata = none → (buildProductParams gr).Metadata = none)
    ∧ (buildProductParams gr).Description = some gr.Description
    ∧ (buildProductParams gr).Active = some gr.Active := by
  refine ⟨?_, ?_, rfl, ?_, ?_, ?_, ?_, ?_, ?_, rfl, rfl⟩ <;>
    intro h <;> simp [buildCustomerParams, buildPaymentIntentParams, buildProductParams, h]

/-- Witness for C9 (amended) at the concrete create-customer request with
all optional fields empty. -/
theorem c9_amended_conditional_fields_witness :
    (buildCustomerParams emptyOptionalCustomerReq).Phone = none
    ∧ (buildCustomerParams emptyOptionalCustomerReq).Metadata = none := by
  obtain ⟨h1, h2, _⟩ :=
    c9_amended_conditional_fields_omitted emptyOptionalCustomerReq
      { Amount := 1, Currency := "usd", CustomerID := "", Description := "",
        Metadata := none, PaymentMethodID := "", ConfirmationMethod := "" }
      { Name := "n", Description := "", Active := false, Metadata := none }
  exact ⟨h1 rfl, h2 rfl⟩

/-- Claim C10 (confirmed): a positive requested limit is forwarded to the
provider exactly, with no upper bound — in particular any value above the
declared `MaxCustomerLimit` of 100 passes through unchanged, so the
constant is never applied — while a zero or negative limit falls back to
the default of 10. -/
theorem c10_limit_forwarded_uncapped (l : Int) (cursor : String) :
    (0 < l → (buildCustomerListParams { Limit := l, Cursor := cursor }).Limit = some l)
    ∧ (l ≤ 0 →
        (buildCustomerListParams { Limit := l, Cursor := cursor }).Limit
          = some DefaultCustomerLimit)
    ∧ (MaxCustomerLimit < l →
        (buildCustomerListParams { Limit := l, Cursor := cursor }).Limit = some l)
    ∧ DefaultCustomerLimit = 10 ∧ MaxCustomerLimit = 100 := by
  refine ⟨?_, ?_, ?_, rfl, rfl⟩
  · intro h
    simp [buildCustomerListParams, h]
  · intro h
    simp [buildCustomerListParams, not_lt.mpr h]
  · intro h
    have h0 : (0 : Int) < l := lt_trans (by norm_num [MaxCustomerLimit]) h
    simp [buildCustomerListParams, h0]

/-- Witness for C10 at the concrete limits 1000 (above the declared
maximum, forwarded unchanged) and -5 (defaulted to 10). -/
theorem c10_limit_forwarded_uncapped_witness :
    (buildCustomerListParams { Limit := 1000, Cursor := "" }).Limit = some 1000
    ∧ (buildCustomerListParams { Limit := -5, Cursor := "" }).Limit
        = some DefaultCustomerLimit := by
  refine ⟨(c10_limit_forwarded_uncapped 1000 "").2.2.1 (by decide),
          (c10_limit_forwarded_uncapped (-5) "").2.1 (by decide)⟩
